import Mathlib

/-!
Verification of the approval-gate tool and workflow helpers of the
kaggle-5-day-ai-agents repository.

The embedding follows `src/day-2/day-2b/examples/2_long_running_operations.py`
(the function `place_shipping_order` and the constant `LARGE_ORDER_THRESHOLD`)
and `src/day-2/day-2b/utils/workflow_helpers.py` (the function
`check_for_approval`).

Python dictionaries returned by the gate are modelled as association lists
from string keys to values (strings or integers), so that presence and
absence of keys such as `order_id` is observable.  The ADK `ToolContext` is
modelled by its two capabilities the gate uses: the `tool_confirmation`
attribute (absent on a first call, carrying the human's boolean `confirmed`
on a resumed call) and the `request_confirmation` method, modelled as
appending the emitted confirmation request to an explicit log inside the
context, so that emission of confirmation requests is observable.
-/

/-- A value stored in one of the result dictionaries: the source stores
strings and integers. -/
inductive Value where
  | str (s : String)
  | int (n : Int)
deriving DecidableEq

/-- A Python dict with string keys, as an association list. -/
abbrev Dict := List (String × Value)

/-- The `tool_confirmation` object on a resumed call: the human decision,
exposing the boolean `confirmed`. -/
structure ToolConfirmation where
  confirmed : Bool
deriving DecidableEq

/-- A confirmation request emitted by `ToolContext.request_confirmation`:
a hint string and a payload dictionary. -/
structure ConfirmationReq where
  hint : String
  payload : Dict
deriving DecidableEq

/-- The slice of the ADK `ToolContext` used by the gate: the
`tool_confirmation` attribute (none on a first call) and the log of
confirmation requests emitted through `request_confirmation`. -/
structure ToolContext where
  tool_confirmation : Option ToolConfirmation
  requested : List ConfirmationReq
deriving DecidableEq

/-- `ToolContext.request_confirmation(hint, payload)`: record the
confirmation request on the context. -/
def request_confirmation (ctx : ToolContext) (hint : String) (payload : Dict) :
    ToolContext :=
  { ctx with requested := ctx.requested ++ [{ hint := hint, payload := payload }] }

/-- `LARGE_ORDER_THRESHOLD = 5` from the source. -/
def LARGE_ORDER_THRESHOLD : Int := 5

/-- `place_shipping_order(num_containers, destination, tool_context)`,
translated branch for branch from the source.  The returned pair is the
result dictionary together with the (possibly updated) tool context. -/
def place_shipping_order (num_containers : Int) (destination : String)
    (tool_context : ToolContext) : Dict × ToolContext :=
  if num_containers ≤ LARGE_ORDER_THRESHOLD then
    ([("status", Value.str "approved"),
      ("order_id", Value.str ("ORD-" ++ toString num_containers ++ "-AUTO")),
      ("num_containers", Value.int num_containers),
      ("destination", Value.str destination),
      ("message", Value.str ("Order auto-approved: " ++ toString num_containers ++
        " containers to " ++ destination))],
     tool_context)
  else
    match tool_context.tool_confirmation with
    | none =>
      (([("status", Value.str "pending"),
         ("message", Value.str ("Order for " ++ toString num_containers ++
           " containers requires approval"))]),
       request_confirmation tool_context
         ("⚠️ Large order: " ++ toString num_containers ++ " containers to " ++
           destination ++ ". Approve?")
         [("num_containers", Value.int num_containers),
          ("destination", Value.str destination)])
    | some tc =>
      if tc.confirmed then
        ([("status", Value.str "approved"),
          ("order_id", Value.str ("ORD-" ++ toString num_containers ++ "-HUMAN")),
          ("num_containers", Value.int num_containers),
          ("destination", Value.str destination),
          ("message", Value.str ("Order approved: " ++ toString num_containers ++
            " containers to " ++ destination))],
         tool_context)
      else
        ([("status", Value.str "rejected"),
          ("message", Value.str ("Order rejected: " ++ toString num_containers ++
            " containers to " ++ destination))],
         tool_context)

/-- The substring relation used to state that a hint string contains a
piece of text. -/
def ContainsSubstr (s sub : String) : Prop :=
  ∃ pre post : String, s = pre ++ sub ++ post

/-! Event model for `check_for_approval` in
`src/day-2/day-2b/utils/workflow_helpers.py`.  An event carries an optional
content made of parts; a part may carry a function call with a name and an
optional id. -/

namespace genai

/-- A function call inside an event part: `name` and the optional `id`. -/
structure FunctionCall where
  name : String
  id : Option String
deriving DecidableEq

/-- A part of an event content: an optional function call and optional text. -/
structure EvPart where
  function_call : Option FunctionCall
  text : Option String
deriving DecidableEq

/-- An event content: the list of parts (an absent or empty parts list is
skipped identically by the source loop, so it is modelled as a list). -/
structure Content where
  parts : List EvPart
deriving DecidableEq

/-- An event: optional content and the invocation id. -/
structure Event where
  content : Option Content
  invocation_id : String
deriving DecidableEq

end genai

open genai

/-- The dictionary returned by `check_for_approval` on success:
`approval_id` (the function-call id, which may be absent) and
`invocation_id`. -/
structure ApprovalInfo where
  approval_id : Option String
  invocation_id : String
deriving DecidableEq

/-- The inner loop of `check_for_approval`: scan the parts of one event for
a function call named `adk_request_confirmation`, returning the first one. -/
def scanParts : List EvPart → Option FunctionCall
  | [] => none
  | p :: ps =>
    match p.function_call with
    | some fc =>
      if fc.name == "adk_request_confirmation" then some fc else scanParts ps
    | none => scanParts ps

/-- `check_for_approval(events)`: scan events in order; at the first part of
the first event holding a function call named `adk_request_confirmation`,
return its id as `approval_id` together with the event's `invocation_id`;
return none when no event holds one. -/
def check_for_approval : List Event → Option ApprovalInfo
  | [] => none
  | e :: es =>
    match e.content with
    | some c =>
      match scanParts c.parts with
      | some fc =>
        some { approval_id := fc.id, invocation_id := e.invocation_id }
      | none => check_for_approval es
    | none => check_for_approval es

/-- Specification-side predicate: this part holds a function call named
`adk_request_confirmation`. -/
def partMatches (p : EvPart) : Bool :=
  match p.function_call with
  | some fc => fc.name == "adk_request_confirmation"
  | none => false

/-- Specification-side predicate: this event holds a part with a function
call named `adk_request_confirmation`. -/
def eventMatches (e : Event) : Bool :=
  match e.content with
  | some c => c.parts.any partMatches
  | none => false

/-- Specification-side extraction: the function call of the first matching
part of an event. -/
def firstConfirmCall (e : Event) : Option FunctionCall :=
  e.content.bind fun c => (c.parts.find? partMatches).bind EvPart.function_call

example :
    (place_shipping_order 3 "Singapore" { tool_confirmation := none, requested := [] }).1.lookup "status"
      = some (Value.str "approved") := by decide

example :
    (place_shipping_order 10 "Rotterdam" { tool_confirmation := none, requested := [] }).1.lookup "status"
      = some (Value.str "pending") := by decide

example :
    (place_shipping_order 10 "Rotterdam" { tool_confirmation := some { confirmed := true }, requested := [] }).1.lookup "order_id"
      = some (Value.str "ORD-10-HUMAN") := by decide

/-- Claim C1: for every integer quantity with 0 ≤ quantity ≤ 5 and every
destination, a first call of the gate (no resume state) returns status
"approved" with order id "ORD-{quantity}-AUTO", and emits no confirmation
request. -/
theorem gate_first_call_small_auto (q : Int) (d : String) (ctx : ToolContext)
    (h0 : 0 ≤ q) (h5 : q ≤ LARGE_ORDER_THRESHOLD)
    (hc : ctx.tool_confirmation = none) :
    (place_shipping_order q d ctx).1.lookup "status" = some (Value.str "approved") ∧
    (place_shipping_order q d ctx).1.lookup "order_id"
      = some (Value.str ("ORD-" ++ toString q ++ "-AUTO")) ∧
    (place_shipping_order q d ctx).2.requested = ctx.requested := by
  unfold place_shipping_order
  rw [if_pos h5]
  exact ⟨rfl, rfl, rfl⟩

/-- Claim C1, witness at quantity 3, destination "Singapore". -/
theorem gate_first_call_small_auto_witness :
    (0 : Int) ≤ 3 ∧ (3 : Int) ≤ LARGE_ORDER_THRESHOLD ∧
    (ToolContext.mk none []).tool_confirmation = none ∧
    ((place_shipping_order 3 "Singapore" (ToolContext.mk none [])).1.lookup "status"
        = some (Value.str "approved") ∧
      (place_shipping_order 3 "Singapore" (ToolContext.mk none [])).1.lookup "order_id"
        = some (Value.str ("ORD-" ++ toString (3 : Int) ++ "-AUTO")) ∧
      (place_shipping_order 3 "Singapore" (ToolContext.mk none [])).2.requested
        = (ToolContext.mk none []).requested) :=
  ⟨by decide, by decide, rfl,
    gate_first_call_small_auto 3 "Singapore" (ToolContext.mk none [])
      (by decide) (by decide) rfl⟩

/-- Claim C2: for every integer quantity > 5 and every destination, a first
call of the gate (no resume state) returns status "pending" with no
order id, and emits exactly one confirmation request whose payload
reproduces the quantity and destination and whose hint contains both. -/
theorem gate_first_call_large_pauses (q : Int) (d : String) (ctx : ToolContext)
    (hq : LARGE_ORDER_THRESHOLD < q) (hc : ctx.tool_confirmation = none) :
    (place_shipping_order q d ctx).1.lookup "status" = some (Value.str "pending") ∧
    (place_shipping_order q d ctx).1.lookup "order_id" = none ∧
    ∃ req : ConfirmationReq,
      (place_shipping_order q d ctx).2.requested = ctx.requested ++ [req] ∧
      req.payload.lookup "num_containers" = some (Value.int q) ∧
      req.payload.lookup "destination" = some (Value.str d) ∧
      ContainsSubstr req.hint (toString q) ∧
      ContainsSubstr req.hint d := by
  unfold place_shipping_order
  rw [if_neg (not_le.mpr hq), hc]
  refine ⟨rfl, rfl,
    ⟨{ hint := "⚠️ Large order: " ++ toString q ++ " containers to " ++ d ++ ". Approve?",
       payload := [("num_containers", Value.int q), ("destination", Value.str d)] },
     rfl, rfl, rfl, ?_, ?_⟩⟩
  · exact ⟨"⚠️ Large order: ", " containers to " ++ d ++ ". Approve?",
      by simp [String.append_assoc]⟩
  · exact ⟨"⚠️ Large order: " ++ toString q ++ " containers to ", ". Approve?", rfl⟩

/-- Claim C2, witness at quantity 10, destination "Rotterdam". -/
theorem gate_first_call_large_pauses_witness :
    LARGE_ORDER_THRESHOLD < (10 : Int) ∧
    (ToolContext.mk none []).tool_confirmation = none ∧
    ((place_shipping_order 10 "Rotterdam" (ToolContext.mk none [])).1.lookup "status"
        = some (Value.str "pending") ∧
      (place_shipping_order 10 "Rotterdam" (ToolContext.mk none [])).1.lookup "order_id" = none ∧
      ∃ req : ConfirmationReq,
        (place_shipping_order 10 "Rotterdam" (ToolContext.mk none [])).2.requested
          = (ToolContext.mk none []).requested ++ [req] ∧
        req.payload.lookup "num_containers" = some (Value.int 10) ∧
        req.payload.lookup "destination" = some (Value.str "Rotterdam") ∧
        ContainsSubstr req.hint (toString (10 : Int)) ∧
        ContainsSubstr req.hint "Rotterdam") :=
  ⟨by decide, rfl,
    gate_first_call_large_pauses 10 "Rotterdam" (ToolContext.mk none []) (by decide) rfl⟩

/-- Claim C3: for every integer quantity > 5, a resumed call of the gate
(resume state present, confirmed = true) returns status "approved" with
order id "ORD-{quantity}-HUMAN". -/
theorem gate_resume_confirmed_approves (q : Int) (d : String) (ctx : ToolContext)
    (hq : LARGE_ORDER_THRESHOLD < q)
    (hc : ctx.tool_confirmation = some { confirmed := true }) :
    (place_shipping_order q d ctx).1.lookup "status" = some (Value.str "approved") ∧
    (place_shipping_order q d ctx).1.lookup "order_id"
      = some (Value.str ("ORD-" ++ toString q ++ "-HUMAN")) := by
  unfold place_shipping_order
  rw [if_neg (not_le.mpr hq), hc]
  exact ⟨rfl, rfl⟩

/-- Claim C3, witness at quantity 10, destination "Rotterdam". -/
theorem gate_resume_confirmed_approves_witness :
    LARGE_ORDER_THRESHOLD < (10 : Int) ∧
    (ToolContext.mk (some { confirmed := true }) []).tool_confirmation
      = some { confirmed := true } ∧
    ((place_shipping_order 10 "Rotterdam" (ToolContext.mk (some { confirmed := true }) [])).1.lookup "status"
        = some (Value.str "approved") ∧
      (place_shipping_order 10 "Rotterdam" (ToolContext.mk (some { confirmed := true }) [])).1.lookup "order_id"
        = some (Value.str ("ORD-" ++ toString (10 : Int) ++ "-HUMAN"))) :=
  ⟨by decide, rfl,
    gate_resume_confirmed_approves 10 "Rotterdam"
      (ToolContext.mk (some { confirmed := true }) []) (by decide) rfl⟩

/-- Claim C4: for every integer quantity > 5, a resumed call of the gate
(resume state present, confirmed = false) returns status "rejected" and the
result holds no order id key. -/
theorem gate_resume_denied_rejects (q : Int) (d : String) (ctx : ToolContext)
    (hq : LARGE_ORDER_THRESHOLD < q)
    (hc : ctx.tool_confirmation = some { confirmed := false }) :
    (place_shipping_order q d ctx).1.lookup "status" = some (Value.str "rejected") ∧
    (place_shipping_order q d ctx).1.lookup "order_id" = none := by
  unfold place_shipping_order
  rw [if_neg (not_le.mpr hq), hc]
  exact ⟨rfl, rfl⟩

/-- Claim C4, witness at quantity 8, destination "Los Angeles". -/
theorem gate_resume_denied_rejects_witness :
    LARGE_ORDER_THRESHOLD < (8 : Int) ∧
    (ToolContext.mk (some { confirmed := false }) []).tool_confirmation
      = some { confirmed := false } ∧
    ((place_shipping_order 8 "Los Angeles" (ToolContext.mk (some { confirmed := false }) [])).1.lookup "status"
        = some (Value.str "rejected") ∧
      (place_shipping_order 8 "Los Angeles" (ToolContext.mk (some { confirmed := false }) [])).1.lookup "order_id"
        = none) :=
  ⟨by decide, rfl,
    gate_resume_denied_rejects 8 "Los Angeles"
      (ToolContext.mk (some { confirmed := false }) []) (by decide) rfl⟩

/-- Claim C5, counterexample: at quantity 3 (≤ threshold) with a resume
state present and confirmed = false, the gate returns status "approved"
with the -AUTO order id, not "rejected": the threshold branch fires before
the resume-state branch, so the claim as stated fails for small
quantities. -/
theorem gate_resume_small_quantity_counterexample :
    (place_shipping_order 3 "Singapore"
        (ToolContext.mk (some { confirmed := false }) [])).1.lookup "status"
      = some (Value.str "approved") ∧
    (place_shipping_order 3 "Singapore"
        (ToolContext.mk (some { confirmed := false }) [])).1.lookup "status"
      ≠ some (Value.str "rejected") ∧
    (place_shipping_order 3 "Singapore"
        (ToolContext.mk (some { confirmed := false }) [])).1.lookup "order_id"
      = some (Value.str "ORD-3-AUTO") := by
  exact ⟨rfl, by decide, rfl⟩

/-- Claim C5 as amended: whenever the resume state is present AND the
quantity exceeds the threshold, confirmed = true yields status "approved"
with the -HUMAN order id and confirmed = false yields status "rejected"
with no order id; for quantities at or below the threshold the auto-approve
branch fires first and the resume state is ignored. -/
theorem gate_resume_decision_above_threshold (q : Int) (d : String)
    (ctx : ToolContext) (tc : ToolConfirmation)
    (hq : LARGE_ORDER_THRESHOLD < q)
    (hc : ctx.tool_confirmation = some tc) :
    (tc.confirmed = true →
      (place_shipping_order q d ctx).1.lookup "status" = some (Value.str "approved") ∧
      (place_shipping_order q d ctx).1.lookup "order_id"
        = some (Value.str ("ORD-" ++ toString q ++ "-HUMAN"))) ∧
    (tc.confirmed = false →
      (place_shipping_order q d ctx).1.lookup "status" = some (Value.str "rejected") ∧
      (place_shipping_order q d ctx).1.lookup "order_id" = none) := by
  obtain ⟨b⟩ := tc
  cases b
  · constructor
    · intro hb
      exact absurd hb (by decide)
    · intro hb
      unfold place_shipping_order
      rw [if_neg (not_le.mpr hq), hc]
      exact ⟨rfl, rfl⟩
  · constructor
    · intro hb
      unfold place_shipping_order
      rw [if_neg (not_le.mpr hq), hc]
      exact ⟨rfl, rfl⟩
    · intro hb
      exact absurd hb (by decide)

/-- Claim C5 as amended, witness at quantity 10, destination "Rotterdam",
confirmed = true. -/
theorem gate_resume_decision_above_threshold_witness :
    LARGE_ORDER_THRESHOLD < (10 : Int) ∧
    (ToolContext.mk (some { confirmed := true }) []).tool_confirmation
      = some { confirmed := true } ∧
    ((({ confirmed := true } : ToolConfirmation).confirmed = true →
      (place_shipping_order 10 "Rotterdam" (ToolContext.mk (some { confirmed := true }) [])).1.lookup "status"
        = some (Value.str "approved") ∧
      (place_shipping_order 10 "Rotterdam" (ToolContext.mk (some { confirmed := true }) [])).1.lookup "order_id"
        = some (Value.str ("ORD-" ++ toString (10 : Int) ++ "-HUMAN"))) ∧
    (({ confirmed := true } : ToolConfirmation).confirmed = false →
      (place_shipping_order 10 "Rotterdam" (ToolContext.mk (some { confirmed := true }) [])).1.lookup "status"
        = some (Value.str "rejected") ∧
      (place_shipping_order 10 "Rotterdam" (ToolContext.mk (some { confirmed := true }) [])).1.lookup "order_id"
        = none)) :=
  ⟨by decide, rfl,
    gate_resume_decision_above_threshold 10 "Rotterdam"
      (ToolContext.mk (some { confirmed := true }) []) { confirmed := true }
      (by decide) rfl⟩

/-- Claim C6: every result of the gate, for every input, has a status that
is exactly one of "approved", "pending", "rejected", always holds a message
string, and holds an order id exactly when the status is "approved". -/
theorem gate_result_shape (q : Int) (d : String) (ctx : ToolContext) :
    ((place_shipping_order q d ctx).1.lookup "status" = some (Value.str "approved") ∨
      (place_shipping_order q d ctx).1.lookup "status" = some (Value.str "pending") ∨
      (place_shipping_order q d ctx).1.lookup "status" = some (Value.str "rejected")) ∧
    (∃ m : String, (place_shipping_order q d ctx).1.lookup "message" = some (Value.str m)) ∧
    (((place_shipping_order q d ctx).1.lookup "order_id").isSome = true ↔
      (place_shipping_order q d ctx).1.lookup "status" = some (Value.str "approved")) := by
  unfold place_shipping_order
  by_cases h : q ≤ LARGE_ORDER_THRESHOLD
  · rw [if_pos h]
    simp [List.lookup]
  · rw [if_neg h]
    cases hc : ctx.tool_confirmation with
    | none => simp [List.lookup]
    | some tc =>
      obtain ⟨b⟩ := tc
      cases b <;> simp [List.lookup]

/-- Claim C7: the gate is total and the status of its result is determined
solely by the threshold comparison and the confirmed flag: two calls that
agree on whether the quantity is at most the threshold and on the
(optional) confirmed flag yield the same status, and a status is always
present. -/
theorem gate_status_total_and_determined (q₁ q₂ : Int) (d₁ d₂ : String)
    (ctx₁ ctx₂ : ToolContext)
    (hthr : q₁ ≤ LARGE_ORDER_THRESHOLD ↔ q₂ ≤ LARGE_ORDER_THRESHOLD)
    (hc : Option.map ToolConfirmation.confirmed ctx₁.tool_confirmation
        = Option.map ToolConfirmation.confirmed ctx₂.tool_confirmation) :
    ((place_shipping_order q₁ d₁ ctx₁).1.lookup "status").isSome = true ∧
    (place_shipping_order q₁ d₁ ctx₁).1.lookup "status"
      = (place_shipping_order q₂ d₂ ctx₂).1.lookup "status" := by
  unfold place_shipping_order
  by_cases h : q₁ ≤ LARGE_ORDER_THRESHOLD
  · rw [if_pos h, if_pos (hthr.mp h)]
    exact ⟨rfl, rfl⟩
  · rw [if_neg h, if_neg (fun hh => h (hthr.mpr hh))]
    cases h1 : ctx₁.tool_confirmation with
    | none =>
      cases h2 : ctx₂.tool_confirmation with
      | none => exact ⟨rfl, rfl⟩
      | some tc₂ =>
        rw [h1, h2] at hc
        exact absurd hc (by simp)
    | some tc₁ =>
      cases h2 : ctx₂.tool_confirmation with
      | none =>
        rw [h1, h2] at hc
        exact absurd hc (by simp)
      | some tc₂ =>
        rw [h1, h2] at hc
        obtain ⟨b₁⟩ := tc₁
        obtain ⟨b₂⟩ := tc₂
        simp at hc
        subst hc
        cases b₁ <;> exact ⟨rfl, rfl⟩

/-- Claim C7, witness at quantities 3 and 2, distinct destinations and
contexts agreeing on the confirmed flag. -/
theorem gate_status_total_and_determined_witness :
    ((3 : Int) ≤ LARGE_ORDER_THRESHOLD ↔ (2 : Int) ≤ LARGE_ORDER_THRESHOLD) ∧
    Option.map ToolConfirmation.confirmed (ToolContext.mk none []).tool_confirmation
      = Option.map ToolConfirmation.confirmed (ToolContext.mk none []).tool_confirmation ∧
    (((place_shipping_order 3 "Singapore" (ToolContext.mk none [])).1.lookup "status").isSome = true ∧
      (place_shipping_order 3 "Singapore" (ToolContext.mk none [])).1.lookup "status"
        = (place_shipping_order 2 "Oslo" (ToolContext.mk none [])).1.lookup "status") :=
  ⟨by decide, rfl,
    gate_status_total_and_determined 3 2 "Singapore" "Oslo"
      (ToolContext.mk none []) (ToolContext.mk none []) (by decide) rfl⟩

/-- Claim C8: the gate is deterministic and stateless: its result dictionary
and the confirmation requests it emits depend only on the explicit inputs
(quantity, destination, resume state), not on any state accumulated in the
context, so two calls with identical inputs yield identical results. -/
theorem gate_pure_in_hidden_state (q : Int) (d : String) (ctx₁ ctx₂ : ToolContext)
    (hc : ctx₁.tool_confirmation = ctx₂.tool_confirmation) :
    (place_shipping_order q d ctx₁).1 = (place_shipping_order q d ctx₂).1 ∧
    (place_shipping_order q d ctx₁).2.requested.drop ctx₁.requested.length
      = (place_shipping_order q d ctx₂).2.requested.drop ctx₂.requested.length := by
  unfold place_shipping_order request_confirmation
  by_cases h : q ≤ LARGE_ORDER_THRESHOLD
  · rw [if_pos h, if_pos h]
    exact ⟨rfl, by simp⟩
  · rw [if_neg h, if_neg h, hc]
    cases h2 : ctx₂.tool_confirmation with
    | none =>
      refine ⟨rfl, ?_⟩
      simp [List.drop_left]
    | some tc =>
      obtain ⟨b⟩ := tc
      cases b
      · exact ⟨rfl, by simp⟩
      · exact ⟨rfl, by simp⟩

/-- Claim C8, witness: two contexts with the same (absent) resume state but
different accumulated request logs give the same result at quantity 10. -/
theorem gate_pure_in_hidden_state_witness :
    (ToolContext.mk none [{ hint := "old", payload := [] }]).tool_confirmation
      = (ToolContext.mk none []).tool_confirmation ∧
    ((place_shipping_order 10 "Rotterdam"
        (ToolContext.mk none [{ hint := "old", payload := [] }])).1
      = (place_shipping_order 10 "Rotterdam" (ToolContext.mk none [])).1 ∧
    (place_shipping_order 10 "Rotterdam"
        (ToolContext.mk none [{ hint := "old", payload := [] }])).2.requested.drop
        (ToolContext.mk none [{ hint := "old", payload := [] }]).requested.length
      = (place_shipping_order 10 "Rotterdam"
          (ToolContext.mk none [])).2.requested.drop
          (ToolContext.mk none []).requested.length) :=
  ⟨rfl,
    gate_pure_in_hidden_state 10 "Rotterdam"
      (ToolContext.mk none [{ hint := "old", payload := [] }])
      (ToolContext.mk none []) rfl⟩

/-- Claim C9: for every integer quantity ≤ 5 the gate returns the
auto-approved result with order id "ORD-{quantity}-AUTO" even when a resume
state is present, emits nothing, and its result dictionary is unchanged by
replacing the resume state with any other value: the threshold branch is
taken before the resume-state branch. -/
theorem gate_threshold_before_resume (q : Int) (d : String) (ctx : ToolContext)
    (h5 : q ≤ LARGE_ORDER_THRESHOLD) :
    (place_shipping_order q d ctx).1.lookup "status" = some (Value.str "approved") ∧
    (place_shipping_order q d ctx).1.lookup "order_id"
      = some (Value.str ("ORD-" ++ toString q ++ "-AUTO")) ∧
    (place_shipping_order q d ctx).2.requested = ctx.requested ∧
    ∀ rs : Option ToolConfirmation,
      (place_shipping_order q d
          { tool_confirmation := rs, requested := ctx.requested }).1
        = (place_shipping_order q d ctx).1 := by
  unfold place_shipping_order
  rw [if_pos h5]
  exact ⟨rfl, rfl, rfl, fun rs => by rw [if_pos h5]⟩

/-- Claim C9, witness at quantity 3 with a resume state carrying
confirmed = false. -/
theorem gate_threshold_before_resume_witness :
    (3 : Int) ≤ LARGE_ORDER_THRESHOLD ∧
    ((place_shipping_order 3 "Singapore"
        (ToolContext.mk (some { confirmed := false }) [])).1.lookup "status"
        = some (Value.str "approved") ∧
      (place_shipping_order 3 "Singapore"
          (ToolContext.mk (some { confirmed := false }) [])).1.lookup "order_id"
        = some (Value.str ("ORD-" ++ toString (3 : Int) ++ "-AUTO")) ∧
      (place_shipping_order 3 "Singapore"
          (ToolContext.mk (some { confirmed := false }) [])).2.requested
        = (ToolContext.mk (some { confirmed := false }) []).requested ∧
      ∀ rs : Option ToolConfirmation,
        (place_shipping_order 3 "Singapore"
            { tool_confirmation := rs,
              requested := (ToolContext.mk (some { confirmed := false }) []).requested }).1
          = (place_shipping_order 3 "Singapore"
              (ToolContext.mk (some { confirmed := false }) [])).1) :=
  ⟨by decide,
    gate_threshold_before_resume 3 "Singapore"
      (ToolContext.mk (some { confirmed := false }) []) (by decide)⟩

/-- The inner scan returns the function call of the first part matching
`partMatches`. -/
theorem scanParts_eq_find (ps : List EvPart) :
    scanParts ps = (ps.find? partMatches).bind EvPart.function_call := by
  induction ps with
  | nil => rfl
  | cons p ps ih =>
    obtain ⟨pfc, ptext⟩ := p
    cases pfc with
    | none => simpa [scanParts, partMatches] using ih
    | some fc =>
      by_cases hname : fc.name == "adk_request_confirmation"
      · simp [scanParts, partMatches, hname]
      · simpa [scanParts, partMatches, hname] using ih

/-- The inner scan finds nothing exactly when no part matches. -/
theorem scanParts_eq_none_iff (ps : List EvPart) :
    scanParts ps = none ↔ ps.any partMatches = false := by
  rw [scanParts_eq_find]
  constructor
  · intro h
    cases hf : ps.find? partMatches with
    | none =>
      rw [List.find?_eq_none] at hf
      simp only [List.any_eq_false]
      exact hf
    | some p =>
      have hp := List.find?_some hf
      rw [hf] at h
      unfold partMatches at hp
      cases hpc : p.function_call with
      | none =>
        rw [hpc] at hp
        exact absurd hp (by decide)
      | some fc =>
        have h2 : p.function_call = none := h
        rw [hpc] at h2
        exact absurd h2 (by simp)
  · intro h
    have hf : ps.find? partMatches = none := by
      rw [List.find?_eq_none]
      simp only [List.any_eq_false] at h
      exact h
    rw [hf]
    rfl

/-- Claim C10: `check_for_approval` returns none exactly when no event holds
a part whose function call is named adk_request_confirmation; otherwise it
returns the id of that function call as `approval_id` together with the
`invocation_id` of the first such event. -/
theorem check_for_approval_correct (events : List Event) :
    (check_for_approval events = none ↔ ∀ e ∈ events, eventMatches e = false) ∧
    (∀ e, events.find? eventMatches = some e →
      ∃ fc : FunctionCall, firstConfirmCall e = some fc ∧
        check_for_approval events
          = some { approval_id := fc.id, invocation_id := e.invocation_id }) := by
  induction events with
  | nil =>
    refine ⟨by simp [check_for_approval], ?_⟩
    intro e he
    simp at he
  | cons e es ih =>
    obtain ⟨ec, eid⟩ := e
    cases ec with
    | none =>
      have hem : eventMatches ⟨none, eid⟩ = false := rfl
      constructor
      · rw [show check_for_approval (⟨none, eid⟩ :: es) = check_for_approval es from rfl,
          ih.1]
        constructor
        · intro h e' he'
          rcases List.mem_cons.mp he' with h1 | h1
          · rw [h1]
            exact hem
          · exact h e' h1
        · intro h e' he'
          exact h e' (List.mem_cons_of_mem _ he')
      · intro e' he'
        rw [List.find?_cons_of_neg _ (by simp [hem])] at he'
        exact ih.2 e' he'
    | some c =>
      cases hs : scanParts c.parts with
      | none =>
        have hany : c.parts.any partMatches = false :=
          (scanParts_eq_none_iff c.parts).mp hs
        have hem : eventMatches ⟨some c, eid⟩ = false := hany
        have hstep : check_for_approval (⟨some c, eid⟩ :: es)
            = check_for_approval es := by
          show (match scanParts c.parts with
            | some fc => some { approval_id := fc.id, invocation_id := eid }
            | none => check_for_approval es) = check_for_approval es
          rw [hs]
        constructor
        · rw [hstep, ih.1]
          constructor
          · intro h e' he'
            rcases List.mem_cons.mp he' with h1 | h1
            · rw [h1]
              exact hem
            · exact h e' h1
          · intro h e' he'
            exact h e' (List.mem_cons_of_mem _ he')
        · intro e' he'
          rw [List.find?_cons_of_neg _ (by simp [hem])] at he'
          obtain ⟨fc, h1, h2⟩ := ih.2 e' he'
          exact ⟨fc, h1, by rw [hstep]; exact h2⟩
      | some fc =>
        have hany : c.parts.any partMatches = true := by
          cases hany : c.parts.any partMatches with
          | false =>
            have h0 := (scanParts_eq_none_iff c.parts).mpr hany
            rw [h0] at hs
            exact absurd hs (by simp)
          | true => rfl
        have hem : eventMatches ⟨some c, eid⟩ = true := hany
        have hfcc : firstConfirmCall ⟨some c, eid⟩ = some fc := by
          show (c.parts.find? partMatches).bind EvPart.function_call = some fc
          rw [← scanParts_eq_find]
          exact hs
        have hstep : check_for_approval (⟨some c, eid⟩ :: es)
            = some { approval_id := fc.id, invocation_id := eid } := by
          show (match scanParts c.parts with
            | some fc => some { approval_id := fc.id, invocation_id := eid }
            | none => check_for_approval es)
            = some { approval_id := fc.id, invocation_id := eid }
          rw [hs]
        constructor
        · constructor
          · intro h
            rw [hstep] at h
            exact absurd h (by simp)
          · intro h
            exact absurd (h _ (List.mem_cons_self _ _)) (by simp [hem])
        · intro e' he'
          rw [List.find?_cons_of_pos _ hem] at he'
          injection he' with he''
          rw [← he'']
          exact ⟨fc, hfcc, hstep⟩

/-- An event with no content, used to evaluate `check_for_approval` on a
concrete input. -/
def samplePlainEvent : Event :=
  { content := none, invocation_id := "inv-41" }

/-- An event whose second part carries an adk_request_confirmation function
call, used to evaluate `check_for_approval` on a concrete input. -/
def sampleConfirmEvent : Event :=
  { content := some { parts :=
      [{ function_call := none, text := some "hello" },
       { function_call := some { name := "adk_request_confirmation", id := some "call-1" },
         text := none }] },
    invocation_id := "inv-42" }

/-- Claim C10, witness on a concrete two-event list. -/
theorem check_for_approval_correct_witness :
    (check_for_approval [samplePlainEvent, sampleConfirmEvent] = none ↔
      ∀ e ∈ [samplePlainEvent, sampleConfirmEvent], eventMatches e = false) ∧
    (∀ e, [samplePlainEvent, sampleConfirmEvent].find? eventMatches = some e →
      ∃ fc : FunctionCall, firstConfirmCall e = some fc ∧
        check_for_approval [samplePlainEvent, sampleConfirmEvent]
          = some { approval_id := fc.id, invocation_id := e.invocation_id }) :=
  check_for_approval_correct [samplePlainEvent, sampleConfirmEvent]

/-- Claim C6, witness at quantity 8 with a resume state carrying
confirmed = false. -/
theorem gate_result_shape_witness :
    ((place_shipping_order 8 "Lagos" (ToolContext.mk (some { confirmed := false }) [])).1.lookup "status"
        = some (Value.str "approved") ∨
      (place_shipping_order 8 "Lagos" (ToolContext.mk (some { confirmed := false }) [])).1.lookup "status"
        = some (Value.str "pending") ∨
      (place_shipping_order 8 "Lagos" (ToolContext.mk (some { confirmed := false }) [])).1.lookup "status"
        = some (Value.str "rejected")) ∧
    (∃ m : String,
      (place_shipping_order 8 "Lagos" (ToolContext.mk (some { confirmed := false }) [])).1.lookup "message"
        = some (Value.str m)) ∧
    (((place_shipping_order 8 "Lagos" (ToolContext.mk (some { confirmed := false }) [])).1.lookup "order_id").isSome = true ↔
      (place_shipping_order 8 "Lagos" (ToolContext.mk (some { confirmed := false }) [])).1.lookup "status"
        = some (Value.str "approved")) :=
  gate_result_shape 8 "Lagos" (ToolContext.mk (some { confirmed := false }) [])
